import Mathlib

/-!
Verification of the XAI MCQ-explanation pipeline (`xai_module`).

Shallow embedding of the three pipeline stages:
* `get_relevant_snippet` (src/xai_module/tfidf_extractor.py) — the similarity
  vector computed by the external scikit-learn library (TF-IDF + cosine
  similarity) is abstracted as a `scoring : Option (List ℚ)` parameter:
  `some sims` is the vector of cosine similarities (one entry per document,
  in document order) and `none` models the case where the scoring step raised
  an exception (caught in the source, falling back to the first `top_k`
  documents).  Everything downstream of the similarity vector (argsort
  descending, take `top_k`, keep only strictly positive scores, fallback)
  follows the source line by line.
* `reason_mcq` (src/xai_module/rule_reasoner.py) — pure, embedded directly.
* `run_xai` (src/xai_module/xai_pipeline.py) — an explanation client is a
  function `String → String → Except String String`; `Except.error` models a
  raised exception, `Except.ok` a returned text.  The environment variable
  `DEEPSEEK_API_KEY` is a parameter `env_api_key : Option String`, and the
  network behaviour of the default client is a parameter `deepseek_generate`.
-/

/-- Python `str.strip()` default whitespace characters (ASCII part). -/
def isPySpace (c : Char) : Bool :=
  c = ' ' || c = '\t' || c = '\n' || c = '\r' || c = '\x0b' || c = '\x0c'

/-- Python `s.strip()`: drop leading and trailing whitespace. -/
def pyStrip (s : String) : String :=
  String.mk (((s.data.dropWhile isPySpace).reverse.dropWhile isPySpace).reverse)

/-- Python `s.lower()` (modelled on ASCII letters via `Char.toLower`). -/
def pyLower (s : String) : String :=
  String.mk (s.data.map Char.toLower)

/-- Python `s[:n]`: the first `n` characters of `s`. -/
def pySlice (s : String) (n : ℕ) : String :=
  String.mk (s.data.take n)

/-! ## Snippet retriever (src/xai_module/tfidf_extractor.py) -/

/-- Descending comparison on indices induced by a similarity vector:
`i` precedes `j` when the score of `j` is at most the score of `i`. -/
def simGE (sims : List ℚ) (i j : ℕ) : Prop :=
  sims.getD j 0 ≤ sims.getD i 0

instance (sims : List ℚ) : DecidableRel (simGE sims) :=
  fun i j => inferInstanceAs (Decidable (sims.getD j 0 ≤ sims.getD i 0))

/-- Embedding of `np.argsort(similarities)[::-1]`: the indices
`0, …, n-1` sorted by similarity, highest first.  The tie-break order of
`np.argsort` is unspecified; we fix a deterministic stable sort. -/
def argsortDesc (sims : List ℚ) : List ℕ :=
  List.insertionSort (simGE sims) (List.range sims.length)

/-- Indices selected by the scored branch of `get_relevant_snippet`:
`[i for i in np.argsort(similarities)[::-1][:top_k] if similarities[i] > 0]`. -/
def retrieveIdx (sims : List ℚ) (top_k : ℕ) : List ℕ :=
  ((argsortDesc sims).take top_k).filter (fun i => decide (0 < sims.getD i 0))

/-- Embedding of `get_relevant_snippet(question_text, lecture_docs, top_k)`.
The externally computed similarity vector is passed as `scoring`
(`none` = the TF-IDF step raised, caught by the `except` clause). -/
def get_relevant_snippet (question_text : String) (lecture_docs : List String)
    (top_k : ℕ) (scoring : Option (List ℚ)) : List String :=
  if lecture_docs = [] then []
  else if pyStrip question_text = "" then lecture_docs.take top_k
  else
    match scoring with
    | none => lecture_docs.take top_k
    | some sims =>
      let relevant_snippets :=
        (retrieveIdx sims top_k).map (fun i => lecture_docs.getD i "")
      if relevant_snippets = [] then lecture_docs.take top_k
      else relevant_snippets

/-! ## Rule reasoner (src/xai_module/rule_reasoner.py) -/

structure ReasoningRecord where
  status : String
  explanation_hint : String
  review_topic : String
deriving DecidableEq, Repr

def correctHint : String :=
  "Your answer is correct! You have a good understanding of this concept."

def correctReviewTopic : String :=
  "You have mastered this topic. Consider reviewing related advanced concepts."

def incorrectHint : String :=
  "Your answer is incorrect. The selected option appears to be related to a different concept than what the question is focusing on. Please review the lecture material related to this topic."

def genericReviewTopic : String :=
  "You should review the lecture section mentioned in the evidence. Pay special attention to the key concepts and definitions related to this question."

def evidenceReviewTopic (evidence : String) : String :=
  "You should review the lecture section mentioned in the evidence: " ++
    pySlice evidence 100 ++
    "... (if applicable). Focus on understanding the key concepts and their relationships."

/-- Embedding of `reason_mcq(question, student_answer, correct_answer, evidence)`. -/
def reason_mcq (question student_answer correct_answer evidence : String) :
    ReasoningRecord :=
  let student_normalized := pyLower (pyStrip student_answer)
  let correct_normalized := pyLower (pyStrip correct_answer)
  if student_normalized = correct_normalized then
    { status := "correct"
      explanation_hint := correctHint
      review_topic := correctReviewTopic }
  else
    { status := "incorrect"
      explanation_hint := incorrectHint
      review_topic :=
        if evidence = "" then genericReviewTopic else evidenceReviewTopic evidence }

/-! ## LLM adapter (src/xai_module/llm_adapter.py) -/

/-- An explanation client: `generate(system_prompt, user_prompt)` either raises
(`Except.error`) or returns a text (`Except.ok`). -/
abbrev Client := String → String → Except String String

/-- Credential resolution `api_key or os.getenv("DEEPSEEK_API_KEY")`:
an explicit non-empty key wins, otherwise the environment value is used
(Python treats the empty string as falsy). -/
def resolveKey (api_key env_key : Option String) : Option String :=
  match api_key with
  | some k => if k = "" then env_key else some k
  | none => env_key

/-- Embedding of `DeepSeekClient.__init__`: returns the resolved api key or
raises `ValueError` (modelled as `Except.error`) when no credential resolves
(`if not self.api_key: raise ValueError(...)`). -/
def mkDeepSeekClient (api_key env_key : Option String) : Except String String :=
  match resolveKey api_key env_key with
  | some k =>
      if k = "" then Except.error "DeepSeek API key not provided." else Except.ok k
  | none => Except.error "DeepSeek API key not provided."

def openAIStubMessage : String :=
  "OpenAI client not yet implemented. Please use DeepSeekClient for now."

/-- Embedding of `OpenAIClient.generate`: the placeholder returns its fixed
"not yet implemented" text for every pair of prompts, without raising. -/
def OpenAIClient_generate (system_prompt user_prompt : String) :
    Except String String :=
  Except.ok openAIStubMessage

/-! ## Pipeline orchestrator (src/xai_module/xai_pipeline.py) -/

structure PipelineResult where
  status : String
  explanation : String
  evidence : String
  review_topic : String
deriving DecidableEq, Repr

def systemPrompt : String :=
  "You are an Explainable AI assistant for a university MCQ system. You must explain answers in simple, clear terms that help students understand both why their answer is correct or incorrect and what concepts they should review. Keep explanations concise (3-6 sentences) and educational."

/-- Python `f"{reasoning}"`: the dict display of the reasoning record
(keys in insertion order, single-quoted; none of the fixed texts need
escaping). -/
def reprReasoning (r : ReasoningRecord) : String :=
  "\x7b\x27status\x27: \x27" ++ r.status ++
    "\x27, \x27explanation_hint\x27: \x27" ++ r.explanation_hint ++
    "\x27, \x27review_topic\x27: \x27" ++ r.review_topic ++ "\x27\x7d"

def userPrompt (question student_answer correct_answer evidence : String)
    (reasoning : ReasoningRecord) : String :=
  "\nQuestion: " ++ question ++
    "\n\nStudent answer: " ++ student_answer ++
    "\n\nCorrect answer: " ++ correct_answer ++
    "\n\nEvidence from lecture: " ++ evidence ++
    "\n\nInternal reasoning: " ++ reprReasoning reasoning ++
    "\n\nWrite a short explanation (3-6 sentences) for the student. Start with whether they are correct or not, \nthen mention the related topic and key concepts they should understand.\n"

/-- Step 3 of `run_xai` once a client is at hand: call `generate`, and on any
raised error substitute the rule-based `explanation_hint`. -/
def finishWithClient (question student_answer correct_answer evidence : String)
    (reasoning : ReasoningRecord) (client : Client) : PipelineResult :=
  let llm_text :=
    match client systemPrompt
        (userPrompt question student_answer correct_answer evidence reasoning) with
    | Except.ok t => t
    | Except.error _ => reasoning.explanation_hint
  { status := reasoning.status
    explanation := llm_text
    evidence := evidence
    review_topic := reasoning.review_topic }

/-- Embedding of `run_xai`.  `scoring` abstracts the TF-IDF similarities
(see `get_relevant_snippet`), `env_api_key` the `DEEPSEEK_API_KEY`
environment variable, and `deepseek_generate` the network behaviour of the
default client when its construction succeeds. -/
def run_xai (question student_answer correct_answer : String)
    (lecture_docs : List String) (scoring : Option (List ℚ))
    (llm_client : Option Client) (env_api_key : Option String)
    (deepseek_generate : Client) : PipelineResult :=
  let evidence_list := get_relevant_snippet question lecture_docs 1 scoring
  let evidence := evidence_list.headD ""
  let reasoning := reason_mcq question student_answer correct_answer evidence
  match llm_client with
  | some client =>
      finishWithClient question student_answer correct_answer evidence reasoning client
  | none =>
    match mkDeepSeekClient none env_api_key with
    | Except.error _ =>
        { status := reasoning.status
          explanation := reasoning.explanation_hint
          evidence := evidence
          review_topic := reasoning.review_topic }
    | Except.ok _ =>
        finishWithClient question student_answer correct_answer evidence reasoning
          deepseek_generate

/-! ## Helper lemmas about the argsort step -/

lemma argsortDesc_perm (sims : List ℚ) :
    (argsortDesc sims).Perm (List.range sims.length) :=
  List.perm_insertionSort _ _

lemma argsortDesc_nodup (sims : List ℚ) : (argsortDesc sims).Nodup :=
  (argsortDesc_perm sims).nodup_iff.mpr (List.nodup_range _)

lemma mem_argsortDesc {sims : List ℚ} {i : ℕ} :
    i ∈ argsortDesc sims ↔ i < sims.length := by
  rw [(argsortDesc_perm sims).mem_iff, List.mem_range]

lemma argsortDesc_sorted (sims : List ℚ) :
    (argsortDesc sims).Pairwise (simGE sims) := by
  haveI : IsTotal ℕ (simGE sims) :=
    ⟨fun a b => le_total (sims.getD b 0) (sims.getD a 0)⟩
  haveI : IsTrans ℕ (simGE sims) :=
    ⟨fun _ _ _ hab hbc => le_trans hbc hab⟩
  exact List.sorted_insertionSort _ _

lemma argsortDesc_length (sims : List ℚ) :
    (argsortDesc sims).length = sims.length :=
  (argsortDesc_perm sims).length_eq.trans (List.length_range _)

lemma retrieveIdx_sublist (sims : List ℚ) (k : ℕ) :
    (retrieveIdx sims k).Sublist (argsortDesc sims) :=
  (List.filter_sublist _).trans (List.take_sublist _ _)

lemma retrieveIdx_nodup (sims : List ℚ) (k : ℕ) : (retrieveIdx sims k).Nodup :=
  (retrieveIdx_sublist sims k).nodup (argsortDesc_nodup sims)

lemma retrieveIdx_pairwise (sims : List ℚ) (k : ℕ) :
    (retrieveIdx sims k).Pairwise (simGE sims) :=
  (argsortDesc_sorted sims).sublist (retrieveIdx_sublist sims k)

lemma retrieveIdx_length_le (sims : List ℚ) (k : ℕ) :
    (retrieveIdx sims k).length ≤ k :=
  le_trans (List.length_filter_le _ _) (List.length_take_le _ _)

lemma mem_retrieveIdx {sims : List ℚ} {k i : ℕ} (h : i ∈ retrieveIdx sims k) :
    i < sims.length ∧ 0 < sims.getD i 0 := by
  refine ⟨mem_argsortDesc.mp ((retrieveIdx_sublist sims k).subset h), ?_⟩
  unfold retrieveIdx at h
  exact of_decide_eq_true (List.mem_filter.mp h).2

/-- When some document has strictly positive similarity and `k ≥ 1`, the head
of the descending argsort survives the positivity filter, so the selected
index list is nonempty. -/
lemma retrieveIdx_ne_nil {sims : List ℚ} {k : ℕ} (hk : 0 < k)
    (hpos : ∃ i, i < sims.length ∧ 0 < sims.getD i 0) :
    retrieveIdx sims k ≠ [] := by
  obtain ⟨i, hi, hipos⟩ := hpos
  have hne : argsortDesc sims ≠ [] := by
    intro h
    have hlen := argsortDesc_length sims
    rw [h] at hlen
    simp at hlen
    omega
  obtain ⟨b, t, hbt⟩ := List.exists_cons_of_ne_nil hne
  have hmem : i ∈ argsortDesc sims := mem_argsortDesc.mpr hi
  have hsorted := argsortDesc_sorted sims
  rw [hbt] at hsorted hmem
  have hbpos : 0 < sims.getD b 0 := by
    rcases List.mem_cons.mp hmem with rfl | hmem'
    · exact hipos
    · exact lt_of_lt_of_le hipos ((List.pairwise_cons.mp hsorted).1 i hmem')
  obtain ⟨k', rfl⟩ := Nat.exists_eq_succ_of_ne_zero (Nat.pos_iff_ne_zero.mp hk)
  have hbmem : b ∈ retrieveIdx sims (k' + 1) := by
    unfold retrieveIdx
    rw [hbt, List.take_succ_cons]
    exact List.mem_filter.mpr ⟨List.mem_cons_self _ _, decide_eq_true hbpos⟩
  exact List.ne_nil_of_mem hbmem

/-- The scored branch of `get_relevant_snippet` in closed form. -/
lemma get_relevant_snippet_scored (q : String) (docs : List String) (k : ℕ)
    (sims : List ℚ) (hdocs : docs ≠ []) (hq : pyStrip q ≠ "") :
    get_relevant_snippet q docs k (some sims) =
      if (retrieveIdx sims k).map (fun i => docs.getD i "") = [] then docs.take k
      else (retrieveIdx sims k).map (fun i => docs.getD i "") := by
  unfold get_relevant_snippet
  simp [hdocs, hq]

/-! ## Claims about the rule reasoner -/

/-- C3: `reason_mcq` returns status "correct" exactly when the student and
correct answers coincide after stripping surrounding whitespace and
lowercasing, and status "incorrect" otherwise — so the comparison is case-
and surrounding-whitespace-insensitive. -/
theorem reason_mcq_status_iff (q s c e : String) :
    ((reason_mcq q s c e).status = "correct" ↔
        pyLower (pyStrip s) = pyLower (pyStrip c)) ∧
    ((reason_mcq q s c e).status = "incorrect" ↔
        ¬ pyLower (pyStrip s) = pyLower (pyStrip c)) := by
  by_cases h : pyLower (pyStrip s) = pyLower (pyStrip c) <;>
    simp [reason_mcq, h]

/-- C6: for a wrong answer, the review topic of a non-empty evidence embeds
the first 100 characters of the evidence followed by the ellipsis marker;
with empty evidence it is the fixed generic consult-the-lecture text. -/
theorem reason_mcq_review_topic_evidence (q s c e : String)
    (h : pyLower (pyStrip s) ≠ pyLower (pyStrip c)) :
    (e ≠ "" → ∃ pre post, (reason_mcq q s c e).review_topic =
        pre ++ (pySlice e 100 ++ "...") ++ post) ∧
    (e = "" → (reason_mcq q s c e).review_topic = genericReviewTopic) := by
  constructor
  · intro he
    refine ⟨"You should review the lecture section mentioned in the evidence: ",
      " (if applicable). Focus on understanding the key concepts and their relationships.",
      ?_⟩
    have hrv : (reason_mcq q s c e).review_topic = evidenceReviewTopic e := by
      simp [reason_mcq, h, he]
    rw [hrv]
    unfold evidenceReviewTopic
    have hsplit :
        ("... (if applicable). Focus on understanding the key concepts and their relationships." : String) =
          "..." ++ " (if applicable). Focus on understanding the key concepts and their relationships." := by
      decide
    rw [hsplit]
    simp [String.append_assoc]
  · intro he
    simp [reason_mcq, h, he]

theorem reason_mcq_review_topic_evidence_witness :
    pyLower (pyStrip "Berlin") ≠ pyLower (pyStrip "Paris") ∧
    ((("evidence text" : String) ≠ "" →
        ∃ pre post, (reason_mcq "q" "Berlin" "Paris" "evidence text").review_topic =
          pre ++ (pySlice "evidence text" 100 ++ "...") ++ post) ∧
      (("evidence text" : String) = "" →
        (reason_mcq "q" "Berlin" "Paris" "evidence text").review_topic =
          genericReviewTopic)) :=
  ⟨by decide,
    reason_mcq_review_topic_evidence "q" "Berlin" "Paris" "evidence text" (by decide)⟩

/-- C10: when both answers strip to the empty string (both whitespace-only),
they normalize to the same empty string, so the classification is "correct"
with the fixed encouraging hint. -/
theorem reason_mcq_whitespace_correct (q s c e : String)
    (hs : pyStrip s = "") (hc : pyStrip c = "") :
    (reason_mcq q s c e).status = "correct" ∧
    (reason_mcq q s c e).explanation_hint = correctHint := by
  simp [reason_mcq, hs, hc]

theorem reason_mcq_whitespace_correct_witness :
    pyStrip "  " = "" ∧ pyStrip "" = "" ∧
    ((reason_mcq "Q" "  " "" "E").status = "correct" ∧
      (reason_mcq "Q" "  " "" "E").explanation_hint = correctHint) :=
  ⟨by decide, by decide,
    reason_mcq_whitespace_correct "Q" "  " "" "E" (by decide) (by decide)⟩

/-! ## Claim about the stub provider -/

/-- C9: the OpenAI placeholder's `generate` returns, for every pair of
prompts, the same fixed text announcing that it is not implemented; the
output never depends on the prompts, so it cannot pass for a genuine
explanation of them, and the not-implemented marker is in the text. -/
theorem openai_stub_not_implemented :
    (∀ sp up, OpenAIClient_generate sp up = Except.ok openAIStubMessage) ∧
    (∃ pre post, openAIStubMessage = pre ++ "not yet implemented" ++ post) :=
  ⟨fun _ _ => rfl,
    "OpenAI client ", ". Please use DeepSeekClient for now.", by decide⟩

/-! ## Claims about the snippet retriever -/

lemma take_branch_facts (docs : List String) (k : ℕ) :
    (docs.take k).length ≤ k ∧ (∀ d ∈ docs.take k, d ∈ docs) ∧
      (docs.Nodup → (docs.take k).Nodup) :=
  ⟨List.length_take_le _ _, fun _ hd => List.take_subset _ _ hd,
    fun h => (List.take_sublist _ _).nodup h⟩

/-- C8: with an empty or whitespace-only query and a non-empty document
list, the retriever returns the first `top_k` documents verbatim, whatever
the scoring would have been. -/
theorem retrieve_empty_query (q : String) (docs : List String) (k : ℕ)
    (scoring : Option (List ℚ)) (hq : pyStrip q = "") (hdocs : docs ≠ [])
    (hk : 0 < k) :
    get_relevant_snippet q docs k scoring = docs.take k := by
  unfold get_relevant_snippet
  simp [hdocs, hq]

theorem retrieve_empty_query_witness :
    pyStrip "" = "" ∧ (["a", "b"] : List String) ≠ [] ∧ (0 : ℕ) < 1 ∧
    get_relevant_snippet "" ["a", "b"] 1 none = (["a", "b"] : List String).take 1 :=
  ⟨by decide, by decide, by decide,
    retrieve_empty_query "" ["a", "b"] 1 none (by decide) (by decide) (by decide)⟩

/-- C7: over the scored branch, if no document scores strictly positively the
retriever falls back to the first `k` documents; if some document does, every
returned document sits at a position of strictly positive similarity. -/
theorem retrieve_positive_only (q : String) (docs : List String) (k : ℕ)
    (sims : List ℚ) (hk : 0 < k) (hlen : sims.length = docs.length)
    (hdocs : docs ≠ []) (hq : pyStrip q ≠ "") :
    ((∀ i, i < docs.length → sims.getD i 0 ≤ 0) →
        get_relevant_snippet q docs k (some sims) = docs.take k) ∧
    ((∃ i, i < docs.length ∧ 0 < sims.getD i 0) →
        ∀ d ∈ get_relevant_snippet q docs k (some sims),
          ∃ i, i < docs.length ∧ 0 < sims.getD i 0 ∧ docs.getD i "" = d) := by
  constructor
  · intro hnone
    rw [get_relevant_snippet_scored q docs k sims hdocs hq]
    have hidx : retrieveIdx sims k = [] := by
      by_contra hne
      obtain ⟨i, hi⟩ := List.exists_mem_of_ne_nil _ hne
      obtain ⟨hilt, hipos⟩ := mem_retrieveIdx hi
      exact absurd hipos (not_lt.mpr (hnone i (hlen ▸ hilt)))
    rw [hidx]
    simp
  · intro hpos d hd
    have hpos' : ∃ i, i < sims.length ∧ 0 < sims.getD i 0 := by
      obtain ⟨i, hi, hp⟩ := hpos
      exact ⟨i, hlen.symm ▸ hi, hp⟩
    have hne := retrieveIdx_ne_nil hk hpos'
    rw [get_relevant_snippet_scored q docs k sims hdocs hq] at hd
    rw [if_neg (by simp [hne])] at hd
    obtain ⟨i, hi, rfl⟩ := List.mem_map.mp hd
    obtain ⟨hilt, hipos⟩ := mem_retrieveIdx hi
    exact ⟨i, hlen ▸ hilt, hipos, rfl⟩

theorem retrieve_positive_only_witness :
    (0 : ℕ) < 1 ∧ ([(0 : ℚ), 1]).length = (["dog", "cat"] : List String).length ∧
    (["dog", "cat"] : List String) ≠ [] ∧ pyStrip "cat" ≠ "" ∧
    (((∀ i, i < (["dog", "cat"] : List String).length → ([(0 : ℚ), 1]).getD i 0 ≤ 0) →
        get_relevant_snippet "cat" ["dog", "cat"] 1 (some [0, 1]) =
          (["dog", "cat"] : List String).take 1) ∧
      ((∃ i, i < (["dog", "cat"] : List String).length ∧ 0 < ([(0 : ℚ), 1]).getD i 0) →
        ∀ d ∈ get_relevant_snippet "cat" ["dog", "cat"] 1 (some [0, 1]),
          ∃ i, i < (["dog", "cat"] : List String).length ∧
            0 < ([(0 : ℚ), 1]).getD i 0 ∧ (["dog", "cat"] : List String).getD i "" = d)) :=
  ⟨by decide, by decide, by decide, by decide,
    retrieve_positive_only "cat" ["dog", "cat"] 1 [0, 1]
      (by decide) (by decide) (by decide) (by decide)⟩

/-- C2 counterexample: with the query "cat" and two identical documents
"cat", both scoring 1, the retriever returns the same text twice — the
output is not duplicate-free. -/
theorem retrieve_duplicates_counterexample :
    ¬ (get_relevant_snippet "cat" ["cat", "cat"] 2 (some [1, 1])).Nodup := by
  decide

/-- C2 (amended): the retriever returns at most `k` documents, each an
element of `D`, drawn from pairwise-distinct positions of `D` — hence free
of duplicates whenever `D` itself is — and, in the scored non-fallback case,
ordered by similarity descending. -/
theorem retrieve_topk_sound (q : String) (docs : List String) (k : ℕ)
    (sims : List ℚ) (hk : 0 < k) (hlen : sims.length = docs.length) :
    (get_relevant_snippet q docs k (some sims)).length ≤ k ∧
    (∀ d ∈ get_relevant_snippet q docs k (some sims), d ∈ docs) ∧
    (docs.Nodup → (get_relevant_snippet q docs k (some sims)).Nodup) ∧
    (docs ≠ [] → pyStrip q ≠ "" →
      (∃ i, i < docs.length ∧ 0 < sims.getD i 0) →
      ∃ idxs : List ℕ, idxs.Nodup ∧ (∀ i ∈ idxs, i < docs.length) ∧
        get_relevant_snippet q docs k (some sims) =
          idxs.map (fun i => docs.getD i "") ∧
        idxs.Pairwise (fun i j => sims.getD j 0 ≤ sims.getD i 0)) := by
  by_cases hdocs : docs = []
  · subst hdocs
    simp [get_relevant_snippet]
  · by_cases hq : pyStrip q = ""
    · have hr : get_relevant_snippet q docs k (some sims) = docs.take k := by
        unfold get_relevant_snippet
        simp [hdocs, hq]
      rw [hr]
      obtain ⟨h1, h2, h3⟩ := take_branch_facts docs k
      exact ⟨h1, h2, h3, fun _ hq' => absurd hq hq'⟩
    · rw [get_relevant_snippet_scored q docs k sims hdocs hq]
      by_cases hrel : (retrieveIdx sims k).map (fun i => docs.getD i "") = []
      · rw [if_pos hrel]
        obtain ⟨h1, h2, h3⟩ := take_branch_facts docs k
        refine ⟨h1, h2, h3, fun _ _ hpos => absurd (List.map_eq_nil_iff.mp hrel) ?_⟩
        refine retrieveIdx_ne_nil hk ?_
        obtain ⟨i, hi, hp⟩ := hpos
        exact ⟨i, hlen.symm ▸ hi, hp⟩
      · rw [if_neg hrel]
        refine ⟨?_, ?_, ?_, ?_⟩
        · rw [List.length_map]
          exact retrieveIdx_length_le sims k
        · intro d hd
          obtain ⟨i, hi, rfl⟩ := List.mem_map.mp hd
          have hlt : i < docs.length := hlen ▸ (mem_retrieveIdx hi).1
          rw [List.getD_eq_getElem docs "" hlt]
          exact List.getElem_mem hlt
        · intro hnd
          refine List.Nodup.map_on ?_ (retrieveIdx_nodup sims k)
          intro x hx y hy hxy
          have hxl : x < docs.length := hlen ▸ (mem_retrieveIdx hx).1
          have hyl : y < docs.length := hlen ▸ (mem_retrieveIdx hy).1
          rw [List.getD_eq_getElem docs "" hxl, List.getD_eq_getElem docs "" hyl] at hxy
          exact (hnd.getElem_inj_iff).mp hxy
        · intro _ _ _
          exact ⟨retrieveIdx sims k, retrieveIdx_nodup sims k,
            fun i hi => hlen ▸ (mem_retrieveIdx hi).1, rfl,
            retrieveIdx_pairwise sims k⟩

theorem retrieve_topk_sound_witness :
    (0 : ℕ) < 2 ∧ ([(0 : ℚ), 1]).length = (["dog", "cat"] : List String).length ∧
    ((get_relevant_snippet "cat" ["dog", "cat"] 2 (some [0, 1])).length ≤ 2 ∧
      (∀ d ∈ get_relevant_snippet "cat" ["dog", "cat"] 2 (some [0, 1]),
        d ∈ (["dog", "cat"] : List String)) ∧
      ((["dog", "cat"] : List String).Nodup →
        (get_relevant_snippet "cat" ["dog", "cat"] 2 (some [0, 1])).Nodup) ∧
      ((["dog", "cat"] : List String) ≠ [] → pyStrip "cat" ≠ "" →
        (∃ i, i < (["dog", "cat"] : List String).length ∧
          0 < ([(0 : ℚ), 1]).getD i 0) →
        ∃ idxs : List ℕ, idxs.Nodup ∧
          (∀ i ∈ idxs, i < (["dog", "cat"] : List String).length) ∧
          get_relevant_snippet "cat" ["dog", "cat"] 2 (some [0, 1]) =
            idxs.map (fun i => (["dog", "cat"] : List String).getD i "") ∧
          idxs.Pairwise (fun i j => ([(0 : ℚ), 1]).getD j 0 ≤ ([(0 : ℚ), 1]).getD i 0))) :=
  ⟨by decide, by decide,
    retrieve_topk_sound "cat" ["dog", "cat"] 2 [0, 1] (by decide) (by decide)⟩

/-! ## Claims about the pipeline orchestrator -/

/-- C1: when the supplied explanation client raises (any error) on every
call, `run_xai` catches it and returns the record assembled from the earlier
stages, with the rule-based `explanation_hint` as the explanation and the
evidence, status and review topic exactly as the retrieval and reasoning
stages computed them. -/
theorem run_xai_client_error_fallback (q s c : String) (docs : List String)
    (scoring : Option (List ℚ)) (env : Option String) (dg : Client)
    (client : Client)
    (h : ∀ sp up, ∃ err, client sp up = Except.error err) :
    run_xai q s c docs scoring (some client) env dg =
      { status := (reason_mcq q s c
            ((get_relevant_snippet q docs 1 scoring).headD "")).status
        explanation := (reason_mcq q s c
            ((get_relevant_snippet q docs 1 scoring).headD "")).explanation_hint
        evidence := (get_relevant_snippet q docs 1 scoring).headD ""
        review_topic := (reason_mcq q s c
            ((get_relevant_snippet q docs 1 scoring).headD "")).review_topic } := by
  obtain ⟨err, herr⟩ := h systemPrompt
    (userPrompt q s c ((get_relevant_snippet q docs 1 scoring).headD "")
      (reason_mcq q s c ((get_relevant_snippet q docs 1 scoring).headD "")))
  simp only [run_xai, finishWithClient]
  rw [herr]

def errClient : Client := fun _ _ => Except.error "boom"

theorem run_xai_client_error_fallback_witness :
    (∀ sp up, ∃ err, errClient sp up = Except.error err) ∧
    run_xai "Q" "A" "B" ["doc"] (some [1]) (some errClient) none errClient =
      { status := (reason_mcq "Q" "A" "B"
            ((get_relevant_snippet "Q" ["doc"] 1 (some [1])).headD "")).status
        explanation := (reason_mcq "Q" "A" "B"
            ((get_relevant_snippet "Q" ["doc"] 1 (some [1])).headD "")).explanation_hint
        evidence := (get_relevant_snippet "Q" ["doc"] 1 (some [1])).headD ""
        review_topic := (reason_mcq "Q" "A" "B"
            ((get_relevant_snippet "Q" ["doc"] 1 (some [1])).headD "")).review_topic } :=
  ⟨fun _ _ => ⟨"boom", rfl⟩,
    run_xai_client_error_fallback "Q" "A" "B" ["doc"] (some [1]) none errClient
      errClient (fun _ _ => ⟨"boom", rfl⟩)⟩

/-- C5: when the supplied explanation client returns the text `T` (without
raising) on every call, `run_xai` uses `T` verbatim as the explanation, for
any inputs — whether the reasoning status is "correct" or "incorrect" — and
keeps status, evidence and review topic from the earlier stages. -/
theorem run_xai_client_text_verbatim (q s c T : String) (docs : List String)
    (scoring : Option (List ℚ)) (env : Option String) (dg : Client)
    (client : Client) (h : ∀ sp up, client sp up = Except.ok T) :
    run_xai q s c docs scoring (some client) env dg =
      { status := (reason_mcq q s c
            ((get_relevant_snippet q docs 1 scoring).headD "")).status
        explanation := T
        evidence := (get_relevant_snippet q docs 1 scoring).headD ""
        review_topic := (reason_mcq q s c
            ((get_relevant_snippet q docs 1 scoring).headD "")).review_topic } := by
  simp only [run_xai, finishWithClient]
  rw [h]

def greatJobClient : Client := fun _ _ => Except.ok "Great job!"

theorem run_xai_client_text_verbatim_witness :
    (∀ sp up, greatJobClient sp up = Except.ok "Great job!") ∧
    run_xai "Q" "A" "B" ["doc"] (some [1]) (some greatJobClient) none greatJobClient =
      { status := (reason_mcq "Q" "A" "B"
            ((get_relevant_snippet "Q" ["doc"] 1 (some [1])).headD "")).status
        explanation := "Great job!"
        evidence := (get_relevant_snippet "Q" ["doc"] 1 (some [1])).headD ""
        review_topic := (reason_mcq "Q" "A" "B"
            ((get_relevant_snippet "Q" ["doc"] 1 (some [1])).headD "")).review_topic } :=
  ⟨fun _ _ => rfl,
    run_xai_client_text_verbatim "Q" "A" "B" "Great job!" ["doc"] (some [1]) none
      greatJobClient greatJobClient (fun _ _ => rfl)⟩

/-- C4: with no client supplied and no resolvable credential (no explicit
api key is passed on the default path, and the environment variable is unset
or empty), the default client's construction fails and `run_xai` returns,
without raising, the result built directly from the reasoning record, with
`explanation_hint` as the explanation. -/
theorem run_xai_no_credential_fallback (q s c : String) (docs : List String)
    (scoring : Option (List ℚ)) (env : Option String) (dg : Client)
    (henv : env = none ∨ env = some "") :
    run_xai q s c docs scoring none env dg =
      { status := (reason_mcq q s c
            ((get_relevant_snippet q docs 1 scoring).headD "")).status
        explanation := (reason_mcq q s c
            ((get_relevant_snippet q docs 1 scoring).headD "")).explanation_hint
        evidence := (get_relevant_snippet q docs 1 scoring).headD ""
        review_topic := (reason_mcq q s c
            ((get_relevant_snippet q docs 1 scoring).headD "")).review_topic } := by
  have hmk : mkDeepSeekClient none env =
      Except.error "DeepSeek API key not provided." := by
    rcases henv with rfl | rfl <;> rfl
  simp only [run_xai]
  rw [hmk]

theorem run_xai_no_credential_fallback_witness :
    ((none : Option String) = none ∨ (none : Option String) = some "") ∧
    run_xai "Q" "A" "B" ["doc"] (some [1]) none none errClient =
      { status := (reason_mcq "Q" "A" "B"
            ((get_relevant_snippet "Q" ["doc"] 1 (some [1])).headD "")).status
        explanation := (reason_mcq "Q" "A" "B"
            ((get_relevant_snippet "Q" ["doc"] 1 (some [1])).headD "")).explanation_hint
        evidence := (get_relevant_snippet "Q" ["doc"] 1 (some [1])).headD ""
        review_topic := (reason_mcq "Q" "A" "B"
            ((get_relevant_snippet "Q" ["doc"] 1 (some [1])).headD "")).review_topic } :=
  ⟨Or.inl rfl,
    run_xai_no_credential_fallback "Q" "A" "B" ["doc"] (some [1]) none errClient
      (Or.inl rfl)⟩
